import Mathlib

/-!
Verification of the two React client components of the repository:
the tool-synchronization panel (`ToolManagement`, `src/unnamed/part_000`)
and the search page (`SearchContent`, `src/apps/frontend/app/(sidebar)/search/page.tsx`).

The components are shallowly embedded as pure functions: each network
round-trip becomes an explicit `Except`/record argument, each handler
becomes a function from its inputs to an "outcome" record collecting the
state updates, mutation calls, toasts and console logs it performs.
-/

namespace ToolPanel

/-- The `inputSchema` field of an MCP tool: `{ type: "object"; properties?; required? }`.
Property values are `unknown` in the source; they are modelled as opaque strings. -/
structure InputSchema where
  type : String
  properties : Option (List (String × String))
  required : Option (List String)
deriving DecidableEq, Repr

/-- The fallback schema the panel substitutes when a tool carries no schema:
`{ type: "object" as const }`. -/
def defaultSchema : InputSchema :=
  { type := "object", properties := none, required := none }

/-- `MCPTool` from the panel: `name`, optional `description`, `inputSchema`.
The schema is `Option`al here because the source guards against a missing one
(`tool.inputSchema || { type: "object" }`). -/
structure MCPTool where
  name : String
  description : Option String
  inputSchema : Option InputSchema
deriving DecidableEq, Repr

/-- A tool row already persisted in the backend store (`Tool` from
`@repo/zod-types`); only its `name` is consulted by this component. -/
structure DbTool where
  name : String
deriving DecidableEq, Repr

/-- The `tools/list` response shape: `{ tools: MCPTool[] }`. The `tools` field is
`Option`al because the source checks `response?.tools` before using it. -/
structure ToolsListResponse where
  tools : Option (List MCPTool)
deriving DecidableEq, Repr

/-- JavaScript `x || undefined` on an optional string: an empty string is falsy
and also collapses to `undefined`. -/
def jsOrUndefined : Option String → Option String
  | some s => if s = "" then none else some s
  | none => none

/-- One element of the `toolsToSave` payload built in `fetchMCPTools`:
`{ name, description: tool.description || undefined, inputSchema: tool.inputSchema || { type: "object" } }`. -/
structure SavedToolInput where
  name : String
  description : Option String
  inputSchema : InputSchema
deriving DecidableEq, Repr

/-- The per-tool mapping of `fetchMCPTools` building the mutation payload. -/
def toolToSave (t : MCPTool) : SavedToolInput :=
  { name := t.name
    description := jsOrUndefined t.description
    inputSchema := t.inputSchema.getD defaultSchema }

/-- The argument record of `saveToolsMutation.mutate`. -/
structure SaveToolsCall where
  mcpServerUuid : String
  tools : List SavedToolInput
deriving DecidableEq, Repr

/-- A toast notification raised through `sonner`. -/
inductive Toast where
  | success (msg : String)
  | error (msg : String) (description : Option String)
  | info (msg : String)
deriving DecidableEq, Repr

/-- Everything `fetchMCPTools` observably does in one invocation: the value
passed to `setMcpTools`, the mutation call (if any), the toasts raised, the
console errors logged, how many `makeRequest` calls were issued, and the
`loading` flag after the `finally` block. -/
structure FetchOutcome where
  mcpTools : List MCPTool
  mutationCall : Option SaveToolsCall
  toasts : List Toast
  consoleErrors : List (String × String)
  requestsMade : Nat
  loadingAfter : Bool
deriving DecidableEq, Repr

/-- `fetchMCPTools` from `ToolManagement`, with the single awaited
`makeRequest` round-trip passed in as an `Except`: `Except.error e` is the
request throwing (caught by the `catch` block), `Except.ok r` its parsed
response. The function is total — the `catch` branch returns normally, so no
path rethrows — and every path issues exactly one request. -/
def fetchMCPTools (mcpServerUuid : String)
    (request : Except String ToolsListResponse) : FetchOutcome :=
  match request with
  | Except.ok response =>
      match response.tools with
      | some tools =>
          if tools.length > 0 then
            { mcpTools := tools
              mutationCall := some
                { mcpServerUuid := mcpServerUuid, tools := tools.map toolToSave }
              toasts := []
              consoleErrors := []
              requestsMade := 1
              loadingAfter := false }
          else
            { mcpTools := tools
              mutationCall := none
              toasts := [Toast.info "No tools found on MCP server"]
              consoleErrors := []
              requestsMade := 1
              loadingAfter := false }
      | none =>
          { mcpTools := []
            mutationCall := none
            toasts := [Toast.info "No tools found on MCP server"]
            consoleErrors := []
            requestsMade := 1
            loadingAfter := false }
  | Except.error e =>
      { mcpTools := []
        mutationCall := none
        toasts := [Toast.error "Failed to fetch tools from MCP server" (some e)]
        consoleErrors := [("Error fetching MCP tools:", e)]
        requestsMade := 1
        loadingAfter := false }

/-- The `newToolsCount` computation of the panel:
`mcpTools.filter((mcpTool) => !dbTools.some((dbTool) => dbTool.name === mcpTool.name)).length`. -/
def newToolsCount (mcpTools : List MCPTool) (dbTools : List DbTool) : Nat :=
  (mcpTools.filter
    (fun mcpTool => !(dbTools.any (fun dbTool => dbTool.name == mcpTool.name)))).length

/-- The list of newly discovered tools, as the spec describes them: remote
tools whose name does not occur among the stored tool names. Stated from the
spec wording, to compare against the source computations. -/
def specNewTools (mcpTools : List MCPTool) (dbTools : List DbTool) : List MCPTool :=
  mcpTools.filter (fun t => decide (t.name ∉ dbTools.map DbTool.name))

/-- The response shape of the `tools.create` mutation as consumed by
`onSuccess`: a success flag and an optional error message. -/
structure SaveToolsResponse where
  success : Bool
  error : Option String
deriving DecidableEq, Repr

/-- What the `onSuccess` handler of `saveToolsMutation` observably does. -/
structure SaveHandlerOutcome where
  toasts : List Toast
  invalidated : Bool
  refetched : Bool
deriving DecidableEq, Repr

/-- JavaScript `x || dflt` on an optional string: `undefined` and the empty
string are both falsy and fall back to the default. -/
def jsOrString (x : Option String) (dflt : String) : String :=
  match x with
  | some s => if s = "" then dflt else s
  | none => dflt

/-- The `onSuccess` handler of `saveToolsMutation`. `mcpToolsLength` is the
length of the `mcpTools` state read for the success toast. -/
def saveToolsOnSuccess (mcpToolsLength : Nat) (response : SaveToolsResponse) :
    SaveHandlerOutcome :=
  if response.success then
    { toasts :=
        [Toast.success ("Found " ++ toString mcpToolsLength ++ " tools from MCP server")]
      invalidated := true
      refetched := true }
  else
    { toasts := [Toast.error (jsOrString response.error "Failed to save tools") none]
      invalidated := false
      refetched := false }

/-- One run of the mount effect of `ToolManagement`: given the current value
of the `hasInitiallyFetched` ref, returns the new ref value and whether
`fetchMCPTools` was called. -/
def mountEffectStep (hasInitiallyFetched : Bool) : Bool × Bool :=
  if hasInitiallyFetched then (hasInitiallyFetched, false) else (true, true)

/-- A sequence of `n` invocations of the mount effect starting from a given
ref value, returning for each invocation whether it called `fetchMCPTools`. -/
def runMountEffects : Bool → Nat → List Bool
  | _, 0 => []
  | flag, Nat.succ n =>
      let r := mountEffectStep flag
      r.2 :: runMountEffects r.1 n

end ToolPanel

namespace SearchPage

/-- `const PAGE_SIZE = 6;` -/
def PAGE_SIZE : Nat := 6

/-- `Math.floor(offset / PAGE_SIZE) + 1`, the `currentPage` prop passed to
`PaginationUi`, over exact rational division as JavaScript numbers compute it
for these magnitudes. -/
def currentPage (offset : ℤ) : ℤ :=
  ⌊(offset : ℚ) / (PAGE_SIZE : ℚ)⌋ + 1

/-- `Math.ceil(data.total / PAGE_SIZE)`, the `totalPages` prop passed to
`PaginationUi`. -/
def totalPages (total : ℕ) : ℤ :=
  ⌈(total : ℚ) / (PAGE_SIZE : ℚ)⌉

/-- The offset written into the URL by `handlePageChange`:
`(page - 1) * PAGE_SIZE`. -/
def handlePageChangeOffset (page : ℤ) : ℤ :=
  (page - 1) * (PAGE_SIZE : ℤ)

/-- `URLSearchParams.set`: replace the value of an existing key, else append. -/
def setParam (params : List (String × String)) (key value : String) :
    List (String × String) :=
  if params.any (fun p => p.1 == key) then
    params.map (fun p => if p.1 == key then (key, value) else p)
  else
    params ++ [(key, value)]

/-- `URLSearchParams.get`: the value of the first entry with the key. -/
def getParam (params : List (String × String)) (key : String) : Option String :=
  (params.find? (fun p => p.1 == key)).map Prod.snd

/-- The params built by the debounced navigation in the search effect:
`new URLSearchParams()`, then `if (searchQuery) params.set("query", searchQuery)`,
then `params.set("offset", "0")`. The JavaScript truthiness test makes the
empty string skip the `query` entry. -/
def buildDebounceParams (searchQuery : String) : List (String × String) :=
  let params : List (String × String) := []
  let params := if searchQuery = "" then params else setParam params "query" searchQuery
  setParam params "offset" "0"

/-- An HTTP response as seen by the search `queryFn`: `ok`, `status`,
`statusText` and the body text. -/
structure HttpResponse where
  ok : Bool
  status : Nat
  statusText : String
  bodyText : String
deriving DecidableEq, Repr

/-- The search `queryFn` applied to the fetch response: a non-OK response
throws `Failed to fetch: STATUS STATUSTEXT - BODY`; an OK response resolves
to the body (JSON parsing is opaque here). The thrown message is what the
page renders via `error.message`. -/
def searchQueryFn (res : HttpResponse) : Except String String :=
  if res.ok then
    Except.ok res.bodyText
  else
    Except.error ("Failed to fetch: " ++ toString res.status ++ " "
      ++ res.statusText ++ " - " ++ res.bodyText)

/-- The fixed debounce delay of the search effect: `setTimeout(..., 500)`. -/
def DEBOUNCE_DELAY_MS : Nat := 500

/-- A pending `setTimeout` armed by the search effect, with the delay it was
armed with and the `searchQuery`/`query` values its closure captured. -/
structure PendingTimer where
  delayMs : Nat
  capturedSearchQuery : String
  capturedUrlQuery : String
deriving DecidableEq, Repr

/-- The state of `SearchContent` relevant to the debounced navigation:
the `query` URL parameter, the controlled input state `searchQuery`, and the
pending timer (if any). -/
structure SearchState where
  urlQuery : String
  searchQuery : String
  pending : Option PendingTimer
deriving DecidableEq, Repr

/-- The body of the search effect: arm a fresh timer with the fixed delay,
capturing the current `searchQuery` and `query`. (The effect cleanup cleared
any previously pending timer; arming overwrites it here.) -/
def armTimer (s : SearchState) : SearchState :=
  { s with pending := some ⟨DEBOUNCE_DELAY_MS, s.searchQuery, s.urlQuery⟩ }

/-- Events driving the debounce machine: the user edits the input
(`setSearchQuery` via `onChange`, which re-runs the effect: cleanup clears
the pending timer, then a new one is armed), or the armed delay elapses with
no intervening event, firing the pending timer. -/
inductive SearchEvent where
  | setInput (value : String)
  | elapse
deriving DecidableEq, Repr

/-- One step of the debounce machine, returning the next state and the
navigation (the params pushed to `/search?...`) if one fired. When the timer
fires and the captured `searchQuery` differs from the captured `query`, the
push navigates; the URL change re-runs the effect, which arms a fresh timer. -/
def debounceStep (s : SearchState) : SearchEvent → SearchState × Option (List (String × String))
  | SearchEvent.setInput v =>
      (armTimer { s with searchQuery := v, pending := none }, none)
  | SearchEvent.elapse =>
      match s.pending with
      | none => (s, none)
      | some t =>
          if t.capturedSearchQuery ≠ t.capturedUrlQuery then
            let params := buildDebounceParams t.capturedSearchQuery
            (armTimer
              { s with urlQuery := (getParam params "query").getD "",
                       pending := none },
              some params)
          else
            ({ s with pending := none }, none)

/-- Component mount: `searchQuery` is initialised from the `query` URL
parameter, and the effect runs once, arming the first timer. -/
def initState (q : String) : SearchState :=
  armTimer { urlQuery := q, searchQuery := q, pending := none }

/-- Run the debounce machine over a list of events, collecting the fired
navigations in order. -/
def debounceRun (s : SearchState) : List SearchEvent → SearchState × List (List (String × String))
  | [] => (s, [])
  | e :: es =>
      let r := debounceStep s e
      let rest := debounceRun r.1 es
      (rest.1, r.2.toList ++ rest.2)

/-- Capture coherence: a pending timer always carries the fixed delay and
captures exactly the current `searchQuery` and `query` (any change to either
re-runs the effect and re-arms). -/
def timerCoherent (s : SearchState) : Prop :=
  ∀ t, s.pending = some t →
    t.delayMs = DEBOUNCE_DELAY_MS ∧
    t.capturedSearchQuery = s.searchQuery ∧
    t.capturedUrlQuery = s.urlQuery

end SearchPage

namespace ToolPanel

theorem any_name_eq_mem (name : String) (dbTools : List DbTool) :
    (dbTools.any (fun dbTool => dbTool.name == name))
      = decide (name ∈ dbTools.map DbTool.name) := by
  rw [Bool.eq_iff_iff]
  simp only [List.any_eq_true, List.mem_map, beq_iff_eq, decide_eq_true_eq]

/-- Claim C2: the displayed `newToolsCount` equals the number of remote tools
whose name does not occur among the names of the stored tools, and a tool is
counted (i.e. belongs to the set of new tools) exactly when it is present in
the remote list and absent by name from the stored list. -/
theorem newToolsCount_eq_spec (mcpTools : List MCPTool) (dbTools : List DbTool) :
    newToolsCount mcpTools dbTools = (specNewTools mcpTools dbTools).length ∧
    ∀ t, t ∈ specNewTools mcpTools dbTools ↔
      (t ∈ mcpTools ∧ t.name ∉ dbTools.map DbTool.name) := by
  constructor
  · unfold newToolsCount specNewTools
    congr 1
    apply List.filter_congr
    intro t _
    rw [any_name_eq_mem]
    by_cases h : t.name ∈ dbTools.map DbTool.name <;> simp [h]
  · intro t
    unfold specNewTools
    simp [List.mem_filter]

/-- Claim C2 witness: a concrete evaluation of the count and the membership
characterisation. -/
theorem newToolsCount_eq_spec_witness :
    newToolsCount
        [{ name := "a", description := none, inputSchema := none },
         { name := "b", description := none, inputSchema := none }]
        [{ name := "a" }]
      = (specNewTools
        [{ name := "a", description := none, inputSchema := none },
         { name := "b", description := none, inputSchema := none }]
        [{ name := "a" }]).length ∧
    newToolsCount
        [{ name := "a", description := none, inputSchema := none },
         { name := "b", description := none, inputSchema := none }]
        [{ name := "a" }] = 1 :=
  ⟨(newToolsCount_eq_spec _ _).1, by decide⟩

/-- Claim C5: when the remote `tools/list` request fails, `fetchMCPTools`
catches the error, logs it to the console, raises an error toast, clears the
displayed remote tool list, makes no mutation call, issues no further request
(exactly the one that failed), and returns normally (the outcome record is
the total result of the call — nothing is rethrown). -/
theorem fetchMCPTools_error (uuid e : String) :
    fetchMCPTools uuid (Except.error e) =
      { mcpTools := []
        mutationCall := none
        toasts := [Toast.error "Failed to fetch tools from MCP server" (some e)]
        consoleErrors := [("Error fetching MCP tools:", e)]
        requestsMade := 1
        loadingAfter := false } := rfl

/-- Claim C6 helper: once the one-shot ref is set, the mount effect never
fetches again. -/
theorem runMountEffects_true_eq (n : Nat) :
    runMountEffects true n = List.replicate n false := by
  induction n with
  | zero => rfl
  | succ n ih => simp [runMountEffects, mountEffectStep, ih, List.replicate]

/-- Claim C6: in every nonempty sequence of mount-effect invocations starting
from a fresh component instance (ref `false`), `fetchMCPTools` is called by
the first invocation and by no later one. -/
theorem mountEffect_fetches_once (n : Nat) :
    runMountEffects false (n + 1) = true :: List.replicate n false := by
  simp [runMountEffects, mountEffectStep, runMountEffects_true_eq]

/-- Claim C1 counterexample: with one remote tool whose name is already
stored, the set of newly discovered tools is empty, yet the mutation payload
still contains that tool — the panel persists the whole remote list, not the
set of newly discovered tools. -/
theorem savedTools_ne_newTools :
    (fetchMCPTools "srv"
        (Except.ok { tools := some [{ name := "a", description := none, inputSchema := none }] })
      ).mutationCall.map SaveToolsCall.tools
      ≠ some ((specNewTools
          [{ name := "a", description := none, inputSchema := none }]
          [{ name := "a" }]).map toolToSave) := by
  decide

/-- Claim C1 amended: for every successful remote `tools/list` response with a
non-empty tool list, the set of tools the panel persists via the create
mutation is exactly the full remote tool list (normalised by `toolToSave`) —
a superset of the newly discovered tools, not only the newly discovered ones. -/
theorem savedTools_eq_allRemote (uuid : String) (tools : List MCPTool)
    (h : tools ≠ []) :
    (fetchMCPTools uuid (Except.ok { tools := some tools })).mutationCall
      = some { mcpServerUuid := uuid, tools := tools.map toolToSave } := by
  simp [fetchMCPTools, List.length_pos.mpr h]

/-- Claim C1 amended, witness at a concrete non-empty response. -/
theorem savedTools_eq_allRemote_witness :
    (fetchMCPTools "srv"
        (Except.ok { tools := some [{ name := "a", description := none, inputSchema := none }] })
      ).mutationCall
      = some { mcpServerUuid := "srv",
               tools := [{ name := "a", description := none, inputSchema := none }].map toolToSave } :=
  savedTools_eq_allRemote "srv" _ (by decide)

/-- Claim C10: the save mutation is invoked iff the remote request succeeds
with a present, non-empty tool list; and on a success with an empty or
missing tool list no mutation call is made and an informational toast is
shown instead. -/
theorem mutation_iff_nonempty_tools (uuid : String)
    (request : Except String ToolsListResponse) :
    ((fetchMCPTools uuid request).mutationCall.isSome = true ↔
      ∃ r ts, request = Except.ok r ∧ r.tools = some ts ∧ ts ≠ []) ∧
    (∀ r, request = Except.ok r → (r.tools = none ∨ r.tools = some []) →
      (fetchMCPTools uuid request).mutationCall = none ∧
      Toast.info "No tools found on MCP server" ∈ (fetchMCPTools uuid request).toasts) := by
  constructor
  · constructor
    · intro hsome
      match request with
      | Except.error e => simp [fetchMCPTools] at hsome
      | Except.ok r =>
          match hr : r.tools with
          | none => simp [fetchMCPTools, hr] at hsome
          | some [] => simp [fetchMCPTools, hr] at hsome
          | some (t :: ts) =>
              exact ⟨r, t :: ts, rfl, hr, by simp⟩
    · rintro ⟨r, ts, rfl, hts, hne⟩
      simp [fetchMCPTools, hts, List.length_pos.mpr hne]
  · rintro r rfl hempty
    rcases hempty with h | h <;> simp [fetchMCPTools, h]

/-- Claim C10 witness: concrete instances of both directions — a non-empty
response triggers the mutation, an empty response yields no mutation and the
informational toast. -/
theorem mutation_iff_nonempty_tools_witness :
    (fetchMCPTools "srv"
        (Except.ok { tools := some [{ name := "a", description := none, inputSchema := none }] })
      ).mutationCall.isSome = true ∧
    (fetchMCPTools "srv" (Except.ok { tools := some [] })).mutationCall = none ∧
    Toast.info "No tools found on MCP server"
      ∈ (fetchMCPTools "srv" (Except.ok { tools := some [] })).toasts := by
  refine ⟨?_, ?_, ?_⟩
  · exact (mutation_iff_nonempty_tools "srv" _).1.mpr
      ⟨{ tools := some [{ name := "a", description := none, inputSchema := none }] },
       [{ name := "a", description := none, inputSchema := none }], rfl, rfl, by decide⟩
  · exact ((mutation_iff_nonempty_tools "srv" _).2 _ rfl (Or.inr rfl)).1
  · exact ((mutation_iff_nonempty_tools "srv" _).2 _ rfl (Or.inr rfl)).2

end ToolPanel

namespace SearchPage

/-- Claim C3: the search page derives the current page as
`floor(offset / 6) + 1` and the total pages as `ceil(total / 6)` with the
page size fixed at 6 — stated over the exact rational arithmetic of the
source and characterised by natural-number division. -/
theorem currentPage_totalPages_formula (offset total : ℕ) :
    PAGE_SIZE = 6 ∧
    currentPage (offset : ℤ) = ((offset / 6 : ℕ) : ℤ) + 1 ∧
    totalPages total = (((total + 5) / 6 : ℕ) : ℤ) := by
  refine ⟨rfl, ?_, ?_⟩
  · unfold currentPage
    rw [Rat.floor_intCast_div_natCast]
    simp only [PAGE_SIZE]
    omega
  · unfold totalPages
    rw [show ((total : ℚ)) / ((PAGE_SIZE : ℕ) : ℚ)
          = -((((-(total : ℤ)) : ℤ) : ℚ) / ((PAGE_SIZE : ℕ) : ℚ)) by
        push_cast
        ring]
    rw [Int.ceil_neg, Rat.floor_intCast_div_natCast]
    simp only [PAGE_SIZE]
    omega

/-- Claim C4: for every page number `p ≥ 1`, `handlePageChange` stores the
offset `(p - 1) * 6`, and deriving the current page from that offset yields
`p` again. -/
theorem pageChange_roundTrip (p : ℤ) (h : 1 ≤ p) :
    handlePageChangeOffset p = (p - 1) * 6 ∧
    currentPage (handlePageChangeOffset p) = p := by
  refine ⟨rfl, ?_⟩
  unfold currentPage handlePageChangeOffset
  have h6 : ((PAGE_SIZE : ℕ) : ℚ) ≠ 0 := by
    simp [PAGE_SIZE]
  rw [show (((p - 1) * (PAGE_SIZE : ℤ) : ℤ) : ℚ)
        = ((p - 1 : ℤ) : ℚ) * ((PAGE_SIZE : ℕ) : ℚ) by push_cast; ring]
  rw [mul_div_cancel_right₀ _ h6, Int.floor_intCast]
  ring

/-- Claim C4 witness: the round trip at page 3. -/
theorem pageChange_roundTrip_witness :
    handlePageChangeOffset 3 = 12 ∧ currentPage (handlePageChangeOffset 3) = 3 :=
  ⟨rfl, (pageChange_roundTrip 3 (by norm_num)).2⟩

/-- Claim C9: the params pushed by every debounced query-change navigation
set the `offset` parameter to `0`, and include the `query` parameter exactly
when the new query is non-empty (in which case its value is that query). -/
theorem debounceParams_reset_offset (searchQuery : String) :
    getParam (buildDebounceParams searchQuery) "offset" = some "0" ∧
    getParam (buildDebounceParams searchQuery) "query"
      = (if searchQuery = "" then none else some searchQuery) := by
  by_cases h : searchQuery = "" <;>
    simp [buildDebounceParams, setParam, getParam, h, List.find?]

end SearchPage

/-- Claim C8: when the tools create mutation responds with `success: false`,
the handler raises an error toast with the message provided by the response,
falling back to the generic message when none (or an empty one) is provided;
and when the search fetch response is non-OK, the error raised (and rendered
by the page) is built from the status, status text and body text of the
response. -/
theorem backendErrors_surfaced (n : Nat) (r : ToolPanel.SaveToolsResponse)
    (res : SearchPage.HttpResponse) (hr : r.success = false) (hres : res.ok = false) :
    ToolPanel.saveToolsOnSuccess n r =
      { toasts :=
          [ToolPanel.Toast.error (ToolPanel.jsOrString r.error "Failed to save tools") none]
        invalidated := false
        refetched := false } ∧
    (∀ e, r.error = some e → e ≠ "" →
      ToolPanel.jsOrString r.error "Failed to save tools" = e) ∧
    (r.error = none →
      ToolPanel.jsOrString r.error "Failed to save tools" = "Failed to save tools") ∧
    SearchPage.searchQueryFn res =
      Except.error ("Failed to fetch: " ++ toString res.status ++ " "
        ++ res.statusText ++ " - " ++ res.bodyText) := by
  refine ⟨?_, ?_, ?_, ?_⟩
  · simp [ToolPanel.saveToolsOnSuccess, hr]
  · intro e he hne
    simp [ToolPanel.jsOrString, he, hne]
  · intro h0
    simp [ToolPanel.jsOrString, h0]
  · simp [SearchPage.searchQueryFn, hres]

/-- Claim C8 witness: a failed save response with message `boom` and a 500
search response, with the resulting toast and error message evaluated. -/
theorem backendErrors_surfaced_witness :
    ToolPanel.saveToolsOnSuccess 2 { success := false, error := some "boom" } =
      { toasts := [ToolPanel.Toast.error "boom" none]
        invalidated := false
        refetched := false } ∧
    SearchPage.searchQueryFn
        { ok := false, status := 500, statusText := "ISE", bodyText := "bad" } =
      Except.error "Failed to fetch: 500 ISE - bad" := by
  have h := backendErrors_surfaced 2 { success := false, error := some "boom" }
    { ok := false, status := 500, statusText := "ISE", bodyText := "bad" } rfl rfl
  refine ⟨?_, ?_⟩
  · rw [h.1, h.2.1 "boom" rfl (by decide)]
  · rw [h.2.2.2]
    rfl

namespace SearchPage

theorem timerCoherent_armTimer (s : SearchState) : timerCoherent (armTimer s) := by
  intro t ht
  have hteq : t = ⟨DEBOUNCE_DELAY_MS, s.searchQuery, s.urlQuery⟩ := by
    have := ht.symm
    simpa [armTimer] using this
  subst hteq
  simp [armTimer]

theorem timerCoherent_step (s : SearchState) (e : SearchEvent)
    (hs : timerCoherent s) : timerCoherent (debounceStep s e).1 := by
  cases e with
  | setInput v => exact timerCoherent_armTimer _
  | elapse =>
      cases hp : s.pending with
      | none => simpa [debounceStep, hp] using hs
      | some t =>
          by_cases hne : t.capturedSearchQuery ≠ t.capturedUrlQuery
          · simp only [debounceStep, hp, if_pos hne]
            exact timerCoherent_armTimer _
          · simp only [debounceStep, hp, if_neg hne]
            intro t' ht'
            simp at ht'

theorem timerCoherent_init (q : String) : timerCoherent (initState q) :=
  timerCoherent_armTimer _

theorem timerCoherent_run (s : SearchState) (events : List SearchEvent)
    (hs : timerCoherent s) : timerCoherent (debounceRun s events).1 := by
  induction events generalizing s with
  | nil => simpa [debounceRun] using hs
  | cons e es ih =>
      simp only [debounceRun]
      exact ih _ (timerCoherent_step s e hs)

/-- Claim C7: in every reachable state of the debounce machine, the pending
timer carries the fixed 500 ms delay and captures the current typed query and
URL query; an input change never navigates and replaces (cancels) the
pending timer with a fresh one capturing the new input, so a superseded
pending navigation never fires; and the elapse of the delay fires a
navigation exactly when a timer is pending and the typed query differs from
the query currently in the URL, navigating to the params built from the
typed query. -/
theorem debounce_navigation (q0 v : String) (events : List SearchEvent) :
    (∀ t, ((debounceRun (initState q0) events).1).pending = some t →
        t.delayMs = DEBOUNCE_DELAY_MS ∧
        t.capturedSearchQuery = ((debounceRun (initState q0) events).1).searchQuery ∧
        t.capturedUrlQuery = ((debounceRun (initState q0) events).1).urlQuery) ∧
    (debounceStep ((debounceRun (initState q0) events).1) (SearchEvent.setInput v)).2
        = none ∧
    (debounceStep ((debounceRun (initState q0) events).1) (SearchEvent.setInput v)).1.pending
        = some ⟨DEBOUNCE_DELAY_MS, v, ((debounceRun (initState q0) events).1).urlQuery⟩ ∧
    ((debounceStep ((debounceRun (initState q0) events).1) SearchEvent.elapse).2
        = if ((debounceRun (initState q0) events).1).pending.isSome = true ∧
              ((debounceRun (initState q0) events).1).searchQuery
                ≠ ((debounceRun (initState q0) events).1).urlQuery
          then some (buildDebounceParams ((debounceRun (initState q0) events).1).searchQuery)
          else none) := by
  have hc := timerCoherent_run (initState q0) events (timerCoherent_init q0)
  set s := (debounceRun (initState q0) events).1 with hsdef
  refine ⟨hc, ?_, ?_, ?_⟩
  · simp [debounceStep]
  · simp [debounceStep, armTimer]
  · cases hp : s.pending with
    | none => simp [debounceStep, hp]
    | some t =>
        obtain ⟨hd, hsq, huq⟩ := hc t hp
        simp only [debounceStep, hp, hsq, huq]
        by_cases hne : s.searchQuery = s.urlQuery
        · rw [if_neg (by simpa using hne), if_neg (by simp [hne])]
        · rw [if_pos (by simpa using hne), if_pos ⟨by simp, hne⟩]

/-- Claim C7 witness: from an initial empty query, typing `a` and letting the
delay elapse fires exactly the navigation to the params built from `a`. -/
theorem debounce_navigation_witness :
    (debounceStep ((debounceRun (initState "") [SearchEvent.setInput "a"]).1)
        SearchEvent.elapse).2 = some (buildDebounceParams "a") := by
  have h := (debounce_navigation "" "a" [SearchEvent.setInput "a"]).2.2.2
  rw [h]
  rfl

end SearchPage
